import Mathlib

/-!
Shallow embedding of the task-template components of the snapped-backend-2
repository:
  src/snapped-web/src/components/TaskTemplate/TaskTemplate.js
  src/snapped-web/src/components/TaskManager/TaskTemplate.js
  src/unnamed/part_002 (TaskModal component)
JS objects used as string-keyed maps are modelled as association lists with
JS-object update semantics (assignment overwrites in place, otherwise
appends); arrays are Lean lists; nullable values are Option.
-/

/-- An assignee search result: `{ id, name, type }` with type one of
client or employee. -/
structure Assignee where
  id : String
  name : String
  type : String
deriving Repr, DecidableEq

/-- A task template record as held in the templates state of
TaskTemplate.js.  `_id` is the server-assigned identifier; `none` models a
record built client-side without an `_id` key (the create payload and bulk
copies). -/
structure Template where
  _id : Option String
  title : String
  description : String
  frequency : String
  priority : String
  job_type : String
  assignees : List Assignee
  is_active : Bool
deriving Repr, DecidableEq

/-- TaskTemplate.js lines 95-96 (and 70-71): the group key of a template is
the name of the first assignee whose type is client, found with
`template.assignees?.find(a => a.type === client)`, or the sentinel
`unassigned` when no such assignee exists. -/
def groupKeyOf (t : Template) : String :=
  match t.assignees.find? (fun a => a.type == "client") with
  | some c => c.name
  | none => "unassigned"

/-- One step of the reduce in `groupedTemplates` (TaskTemplate.js lines
98-101): `if (!groups[groupKey]) groups[groupKey] = [];
groups[groupKey].push(template)` over the association-list model of the JS
accumulator object. -/
def pushGroup : List (String × List Template) → String → Template → List (String × List Template)
  | [], key, t => [(key, [t])]
  | (k, ts) :: rest, key, t =>
    if k = key then (k, ts ++ [t]) :: rest
    else (k, ts) :: pushGroup rest key t

/-- TaskTemplate.js lines 94-103: `templates.reduce((groups, template) =>
..., {})`, partitioning the flat template list by `groupKeyOf`. -/
def groupedTemplates (templates : List Template) : List (String × List Template) :=
  templates.foldl (fun groups t => pushGroup groups (groupKeyOf t) t) []

/-- Reading `groups[key]` from the association-list model of the JS
object: the sequence stored under `key`, or `[]` when absent. -/
def lookupGroup (groups : List (String × List Template)) (key : String) : List Template :=
  match groups.find? (fun p => p.1 == key) with
  | some p => p.2
  | none => []

lemma lookupGroup_pushGroup_self (groups : List (String × List Template)) (key : String)
    (t : Template) :
    lookupGroup (pushGroup groups key t) key = lookupGroup groups key ++ [t] := by
  induction groups with
  | nil => simp [pushGroup, lookupGroup]
  | cons p rest ih =>
    obtain ⟨k0, ts⟩ := p
    by_cases hk : k0 = key
    · subst hk
      simp [pushGroup, lookupGroup, List.find?_cons]
    · simp only [pushGroup, if_neg hk]
      simpa [lookupGroup, List.find?_cons, hk] using ih

lemma lookupGroup_pushGroup_other (groups : List (String × List Template)) (key k : String)
    (t : Template) (h : k ≠ key) :
    lookupGroup (pushGroup groups key t) k = lookupGroup groups k := by
  induction groups with
  | nil => simp [pushGroup, lookupGroup, List.find?_cons, Ne.symm h]
  | cons p rest ih =>
    obtain ⟨k0, ts⟩ := p
    by_cases hk : k0 = key
    · subst hk
      simp [pushGroup, lookupGroup, List.find?_cons, Ne.symm h]
    · simp only [pushGroup, if_neg hk]
      by_cases hk2 : k0 = k
      · subst hk2
        simp [lookupGroup, List.find?_cons]
      · simpa [lookupGroup, List.find?_cons, hk2] using ih

lemma lookupGroup_groupedAux (ts : List Template) (groups : List (String × List Template))
    (k : String) :
    lookupGroup (ts.foldl (fun g t => pushGroup g (groupKeyOf t) t) groups) k =
      lookupGroup groups k ++ ts.filter (fun t => groupKeyOf t == k) := by
  induction ts generalizing groups with
  | nil => simp
  | cons t rest ih =>
    simp only [List.foldl_cons]
    rw [ih]
    by_cases hk : groupKeyOf t = k
    · subst hk
      rw [lookupGroup_pushGroup_self]
      simp [List.filter_cons]
    · rw [lookupGroup_pushGroup_other _ _ _ _ (Ne.symm hk)]
      simp [List.filter_cons, hk]

/-- The fundamental characterization of the reduce at TaskTemplate.js lines
94-103: the bucket stored under a key holds exactly the input templates
whose group key is that key, in input order. -/
lemma lookupGroup_groupedTemplates (ts : List Template) (k : String) :
    lookupGroup (groupedTemplates ts) k = ts.filter (fun t => groupKeyOf t == k) := by
  have := lookupGroup_groupedAux ts [] k
  simpa [groupedTemplates, lookupGroup] using this

lemma flatten_pushGroup_perm (groups : List (String × List Template)) (key : String)
    (t : Template) :
    ((pushGroup groups key t).map Prod.snd).flatten.Perm
      ((groups.map Prod.snd).flatten ++ [t]) := by
  induction groups with
  | nil => simp [pushGroup]
  | cons p rest ih =>
    obtain ⟨k0, ts⟩ := p
    by_cases hk : k0 = key
    · subst hk
      simp only [pushGroup, eq_self_iff_true, if_true, List.map_cons, List.flatten_cons,
        List.append_assoc]
      exact List.Perm.append_left ts List.perm_append_comm
    · simp only [pushGroup, if_neg hk, List.map_cons, List.flatten_cons, List.append_assoc]
      exact List.Perm.append_left ts ih

lemma flatten_groupedAux_perm (ts : List Template) (groups : List (String × List Template)) :
    ((ts.foldl (fun g t => pushGroup g (groupKeyOf t) t) groups).map Prod.snd).flatten.Perm
      ((groups.map Prod.snd).flatten ++ ts) := by
  induction ts generalizing groups with
  | nil => simp
  | cons t rest ih =>
    simp only [List.foldl_cons]
    have h1 := ih (pushGroup groups (groupKeyOf t) t)
    have h2 := List.Perm.append_right rest (flatten_pushGroup_perm groups (groupKeyOf t) t)
    have h3 : (((groups.map Prod.snd).flatten ++ [t]) ++ rest) =
        (groups.map Prod.snd).flatten ++ (t :: rest) := by simp
    exact h1.trans (h3 ▸ h2)

lemma flatten_groupedTemplates_perm (ts : List Template) :
    ((groupedTemplates ts).map Prod.snd).flatten.Perm ts := by
  have := flatten_groupedAux_perm ts []
  simpa [groupedTemplates] using this

/-- C1: groupedTemplates is a total partition keyed by the first
client-type assignee name (sentinel unassigned): every input template lies
in the group of its key and in no other group, the union of the group
sequences is a permutation of the input, and the concrete two-template
example from the spec produces groups Acme ↦ [template 1] and
unassigned ↦ [template 2]. -/
theorem C1_grouping_total_partition (ts : List Template) :
    (∀ t ∈ ts, t ∈ lookupGroup (groupedTemplates ts) (groupKeyOf t)) ∧
    (∀ t, ∀ key, t ∈ lookupGroup (groupedTemplates ts) key → groupKeyOf t = key) ∧
    ((groupedTemplates ts).map Prod.snd).flatten.Perm ts ∧
    groupedTemplates
      [{ _id := some "1", title := "", description := "", frequency := "daily",
         priority := "medium", job_type := "",
         assignees := [{ id := "c1", name := "Acme", type := "client" }], is_active := true },
       { _id := some "2", title := "", description := "", frequency := "daily",
         priority := "medium", job_type := "", assignees := [], is_active := true }] =
      [("Acme",
        [{ _id := some "1", title := "", description := "", frequency := "daily",
           priority := "medium", job_type := "",
           assignees := [{ id := "c1", name := "Acme", type := "client" }], is_active := true }]),
       ("unassigned",
        [{ _id := some "2", title := "", description := "", frequency := "daily",
           priority := "medium", job_type := "", assignees := [], is_active := true }])] := by
  refine ⟨?_, ?_, flatten_groupedTemplates_perm ts, by decide⟩
  · intro t ht
    rw [lookupGroup_groupedTemplates]
    simp [List.mem_filter, ht]
  · intro t key ht
    rw [lookupGroup_groupedTemplates] at ht
    have := (List.mem_filter.mp ht).2
    simpa using this

/-- Witness for C1: in the concrete two-template example, template 1 is a
member of the group of its key. -/
theorem C1_grouping_total_partition_witness :
    ({ _id := some "1", title := "", description := "", frequency := "daily",
       priority := "medium", job_type := "",
       assignees := [{ id := "c1", name := "Acme", type := "client" }],
       is_active := true } : Template) ∈
      lookupGroup
        (groupedTemplates
          [{ _id := some "1", title := "", description := "", frequency := "daily",
             priority := "medium", job_type := "",
             assignees := [{ id := "c1", name := "Acme", type := "client" }], is_active := true },
           { _id := some "2", title := "", description := "", frequency := "daily",
             priority := "medium", job_type := "", assignees := [], is_active := true }])
        (groupKeyOf
          { _id := some "1", title := "", description := "", frequency := "daily",
            priority := "medium", job_type := "",
            assignees := [{ id := "c1", name := "Acme", type := "client" }], is_active := true }) :=
  (C1_grouping_total_partition _).1 _ (by decide)

/-- JS object assignment `m[k] = v` over the association-list model: the
value of an existing key is overwritten in place, otherwise the pair is
appended. -/
def setKey : List (String × Bool) → String → Bool → List (String × Bool)
  | [], k, v => [(k, v)]
  | (k0, v0) :: rest, k, v =>
    if k0 = k then (k0, v) :: rest
    else (k0, v0) :: setKey rest k v

/-- Reading `m[k]` from the expand-state object: `some` the stored boolean,
or `none` when the key is absent (JS `undefined`). -/
def lookupExpand (m : List (String × Bool)) (k : String) : Option Bool :=
  match m.find? (fun p => p.1 == k) with
  | some p => some p.2
  | none => none

/-- TaskTemplate.js lines 68-75: the `newGroups` object built by
`fetchTemplates` — for each response template, when the group key is not
yet present in `expandedGroups` (`=== undefined`), set it to `false`
(collapsed). -/
def newGroupsOf (expandedGroups : List (String × Bool)) (data : List Template) :
    List (String × Bool) :=
  data.foldl (fun ng t =>
    match lookupExpand expandedGroups (groupKeyOf t) with
    | none => setKey ng (groupKeyOf t) false
    | some _ => ng) []

/-- The JS object spread `{ ...prev, ...ng }`: entries of `ng` override
entries of `prev`. -/
def spreadMerge (prev ng : List (String × Bool)) : List (String × Bool) :=
  ng.foldl (fun acc p => setKey acc p.1 p.2) prev

/-- TaskTemplate.js lines 59-84 (`fetchTemplates`), restricted to its
effect on the expand-state map: `setExpandedGroups(prev => ({ ...prev,
...newGroups }))`. -/
def fetchTemplatesExpand (expandedGroups : List (String × Bool)) (data : List Template) :
    List (String × Bool) :=
  spreadMerge expandedGroups (newGroupsOf expandedGroups data)

/-- TaskTemplate.js lines 86-91 (`toggleGroup`): flip the boolean stored
under a group key (JS `!undefined` is `true`, so an absent key toggles to
expanded). -/
def toggleGroup (expandedGroups : List (String × Bool)) (groupKey : String) :
    List (String × Bool) :=
  setKey expandedGroups groupKey (!(lookupExpand expandedGroups groupKey).getD false)

lemma lookupExpand_setKey_self (m : List (String × Bool)) (k : String) (v : Bool) :
    lookupExpand (setKey m k v) k = some v := by
  induction m with
  | nil => simp [setKey, lookupExpand, List.find?_cons]
  | cons p rest ih =>
    obtain ⟨k0, v0⟩ := p
    by_cases hk : k0 = k
    · subst hk
      simp [setKey, lookupExpand, List.find?_cons]
    · simp only [setKey, if_neg hk]
      simpa [lookupExpand, List.find?_cons, hk] using ih

lemma lookupExpand_setKey_other (m : List (String × Bool)) (k k2 : String) (v : Bool)
    (h : k2 ≠ k) : lookupExpand (setKey m k v) k2 = lookupExpand m k2 := by
  induction m with
  | nil => simp [setKey, lookupExpand, List.find?_cons, Ne.symm h]
  | cons p rest ih =>
    obtain ⟨k0, v0⟩ := p
    by_cases hk : k0 = k
    · subst hk
      simp [setKey, lookupExpand, List.find?_cons, Ne.symm h]
    · simp only [setKey, if_neg hk]
      by_cases hk2 : k0 = k2
      · subst hk2
        simp [lookupExpand, List.find?_cons]
      · simpa [lookupExpand, List.find?_cons, hk2] using ih

lemma mem_setKey (m : List (String × Bool)) (k : String) (v : Bool)
    (p : String × Bool) (hp : p ∈ setKey m k v) : p ∈ m ∨ p = (k, v) := by
  induction m with
  | nil =>
    simp [setKey] at hp
    exact Or.inr hp
  | cons q rest ih =>
    obtain ⟨k0, v0⟩ := q
    by_cases hk : k0 = k
    · subst hk
      simp only [setKey, eq_self_iff_true, if_true] at hp
      rcases List.mem_cons.mp hp with h | h
      · exact Or.inr h
      · exact Or.inl (List.mem_cons_of_mem _ h)
    · simp only [setKey, if_neg hk] at hp
      rcases List.mem_cons.mp hp with h | h
      · exact Or.inl (h ▸ List.mem_cons_self _ _)
      · rcases ih h with h2 | h2
        · exact Or.inl (List.mem_cons_of_mem _ h2)
        · exact Or.inr h2

lemma self_mem_setKey (m : List (String × Bool)) (k : String) (v : Bool) :
    (k, v) ∈ setKey m k v := by
  induction m with
  | nil => simp [setKey]
  | cons q rest ih =>
    obtain ⟨k0, v0⟩ := q
    by_cases hk : k0 = k
    · subst hk
      simp [setKey]
    · simp only [setKey, if_neg hk]
      exact List.mem_cons_of_mem _ ih

lemma mem_setKey_of_ne (m : List (String × Bool)) (k : String) (v : Bool)
    (p : String × Bool) (hp : p ∈ m) (hne : p.1 ≠ k) : p ∈ setKey m k v := by
  induction m with
  | nil => simp at hp
  | cons q rest ih =>
    obtain ⟨k0, v0⟩ := q
    rcases List.mem_cons.mp hp with h | h
    · subst h
      simp only [setKey, if_neg hne]
      exact List.mem_cons_self _ _
    · by_cases hk : k0 = k
      · subst hk
        simp only [setKey, eq_self_iff_true, if_true]
        exact List.mem_cons_of_mem _ h
      · simp only [setKey, if_neg hk]
        exact List.mem_cons_of_mem _ (ih h)

lemma newGroupsOf_entries (expandedGroups : List (String × Bool)) (data : List Template) :
    ∀ p ∈ newGroupsOf expandedGroups data,
      p.2 = false ∧ lookupExpand expandedGroups p.1 = none := by
  have main : ∀ (l : List Template) (acc : List (String × Bool)),
      (∀ p ∈ acc, p.2 = false ∧ lookupExpand expandedGroups p.1 = none) →
      ∀ p ∈ l.foldl (fun ng t =>
        match lookupExpand expandedGroups (groupKeyOf t) with
        | none => setKey ng (groupKeyOf t) false
        | some _ => ng) acc,
        p.2 = false ∧ lookupExpand expandedGroups p.1 = none := by
    intro l
    induction l with
    | nil => intro acc hacc p hp; exact hacc p hp
    | cons t rest ih =>
      intro acc hacc p hp
      simp only [List.foldl_cons] at hp
      cases hcase : lookupExpand expandedGroups (groupKeyOf t) with
      | none =>
        rw [hcase] at hp
        refine ih (setKey acc (groupKeyOf t) false) ?_ p hp
        intro q hq
        rcases mem_setKey acc (groupKeyOf t) false q hq with h | h
        · exact hacc q h
        · subst h
          exact ⟨rfl, hcase⟩
      | some b =>
        rw [hcase] at hp
        exact ih acc hacc p hp
  intro p hp
  exact main data [] (by simp) p hp

lemma newGroupsOf_key_present (expandedGroups : List (String × Bool)) (data : List Template)
    (K : String) (hmem : K ∈ data.map groupKeyOf)
    (habs : lookupExpand expandedGroups K = none) :
    ∃ p ∈ newGroupsOf expandedGroups data, p.1 = K := by
  have main : ∀ (l : List Template) (acc : List (String × Bool)),
      (K ∈ l.map groupKeyOf ∨ ∃ p ∈ acc, p.1 = K) →
      ∃ p ∈ l.foldl (fun ng t =>
        match lookupExpand expandedGroups (groupKeyOf t) with
        | none => setKey ng (groupKeyOf t) false
        | some _ => ng) acc, p.1 = K := by
    intro l
    induction l with
    | nil =>
      intro acc h
      rcases h with h | h
      · simp at h
      · simpa using h
    | cons t rest ih =>
      intro acc h
      simp only [List.foldl_cons]
      cases hcase : lookupExpand expandedGroups (groupKeyOf t) with
      | none =>
        refine ih (setKey acc (groupKeyOf t) false) ?_
        rcases h with h | h
        · rcases List.mem_map.mp h with ⟨u, hu, hku⟩
          rcases List.mem_cons.mp hu with h2 | h2
          · subst h2
            exact Or.inr ⟨(groupKeyOf u, false), self_mem_setKey acc _ _, hku⟩
          · exact Or.inl (List.mem_map.mpr ⟨u, h2, hku⟩)
        · obtain ⟨p, hp, hpk⟩ := h
          by_cases hpkey : p.1 = groupKeyOf t
          · exact Or.inr ⟨(groupKeyOf t, false), self_mem_setKey acc _ _, hpkey ▸ hpk⟩
          · exact Or.inr ⟨p, mem_setKey_of_ne acc _ _ p hp hpkey, hpk⟩
      | some b =>
        refine ih acc ?_
        rcases h with h | h
        · rcases List.mem_map.mp h with ⟨u, hu, hku⟩
          rcases List.mem_cons.mp hu with h2 | h2
          · subst h2
            rw [hku] at hcase
            rw [habs] at hcase
            cases hcase
          · exact Or.inl (List.mem_map.mpr ⟨u, h2, hku⟩)
        · exact Or.inr h
  exact main data [] (Or.inl hmem)

lemma lookupExpand_spreadMerge_not_mem (prev ng : List (String × Bool)) (K : String)
    (h : ∀ p ∈ ng, p.1 ≠ K) :
    lookupExpand (spreadMerge prev ng) K = lookupExpand prev K := by
  induction ng generalizing prev with
  | nil => rfl
  | cons q rest ih =>
    simp only [spreadMerge, List.foldl_cons]
    have h1 : ∀ p ∈ rest, p.1 ≠ K := fun p hp => h p (List.mem_cons_of_mem _ hp)
    have h2 : q.1 ≠ K := h q (List.mem_cons_self _ _)
    have := ih (setKey prev q.1 q.2) h1
    rw [spreadMerge] at this
    rw [this]
    exact lookupExpand_setKey_other prev q.1 K q.2 (Ne.symm h2)

lemma lookupExpand_spreadMerge_mem_false (prev ng : List (String × Bool)) (K : String)
    (hfalse : ∀ p ∈ ng, p.2 = false) (hmem : ∃ p ∈ ng, p.1 = K) :
    lookupExpand (spreadMerge prev ng) K = some false := by
  induction ng generalizing prev with
  | nil => simp at hmem
  | cons q rest ih =>
    simp only [spreadMerge, List.foldl_cons]
    by_cases hrest : ∃ p ∈ rest, p.1 = K
    · have := ih (setKey prev q.1 q.2) (fun p hp => hfalse p (List.mem_cons_of_mem _ hp)) hrest
      rw [spreadMerge] at this
      exact this
    · obtain ⟨p, hp, hpk⟩ := hmem
      rcases List.mem_cons.mp hp with h | h
      · subst h
        have hnot : ∀ p ∈ rest, p.1 ≠ K := by
          intro r hr
          intro hrk
          exact hrest ⟨r, hr, hrk⟩
        have := lookupExpand_spreadMerge_not_mem (setKey prev p.1 p.2) rest K hnot
        rw [spreadMerge] at this
        rw [this, ← hpk, lookupExpand_setKey_self, hfalse p (List.mem_cons_self _ _)]
      · exact absurd ⟨p, h, hpk⟩ hrest

/-- C2: expand-state persistence across refetches — a key stored as
expanded (`true`) before `fetchTemplates` is still `true` afterwards, and a
group key produced by the response that was previously absent is
initialized to `false` (collapsed). -/
theorem C2_expand_state_persistence (expandedGroups : List (String × Bool))
    (data : List Template) (K : String) :
    (lookupExpand expandedGroups K = some true →
      lookupExpand (fetchTemplatesExpand expandedGroups data) K = some true) ∧
    (K ∈ data.map groupKeyOf → lookupExpand expandedGroups K = none →
      lookupExpand (fetchTemplatesExpand expandedGroups data) K = some false) := by
  constructor
  · intro htrue
    have hnot : ∀ p ∈ newGroupsOf expandedGroups data, p.1 ≠ K := by
      intro p hp hpk
      have := (newGroupsOf_entries expandedGroups data p hp).2
      rw [hpk, htrue] at this
      cases this
    rw [fetchTemplatesExpand, lookupExpand_spreadMerge_not_mem _ _ _ hnot]
    exact htrue
  · intro hmem habs
    have hfalse : ∀ p ∈ newGroupsOf expandedGroups data, p.2 = false :=
      fun p hp => (newGroupsOf_entries expandedGroups data p hp).1
    have hkey := newGroupsOf_key_present expandedGroups data K hmem habs
    exact lookupExpand_spreadMerge_mem_false _ _ _ hfalse hkey

/-- Witness for C2: with the Acme group expanded before a refetch whose
response again contains an Acme-anchored template and a new unassigned
template, the Acme key stays expanded and the unassigned key is
initialized collapsed. -/
theorem C2_expand_state_persistence_witness :
    lookupExpand
        (fetchTemplatesExpand [("Acme", true)]
          [{ _id := some "1", title := "", description := "", frequency := "daily",
             priority := "medium", job_type := "",
             assignees := [{ id := "c1", name := "Acme", type := "client" }], is_active := true },
           { _id := some "2", title := "", description := "", frequency := "daily",
             priority := "medium", job_type := "", assignees := [], is_active := true }])
        "Acme" = some true ∧
    lookupExpand
        (fetchTemplatesExpand [("Acme", true)]
          [{ _id := some "1", title := "", description := "", frequency := "daily",
             priority := "medium", job_type := "",
             assignees := [{ id := "c1", name := "Acme", type := "client" }], is_active := true },
           { _id := some "2", title := "", description := "", frequency := "daily",
             priority := "medium", job_type := "", assignees := [], is_active := true }])
        "unassigned" = some false :=
  ⟨(C2_expand_state_persistence [("Acme", true)] _ "Acme").1 (by decide),
   (C2_expand_state_persistence [("Acme", true)] _ "unassigned").2 (by decide) (by decide)⟩

/-- The form-state object of TaskTemplate.js lines 19-27 (`formData`): a
template draft without an `_id` key. -/
structure FormData where
  title : String
  description : String
  frequency : String
  priority : String
  job_type : String
  assignees : List Assignee
  is_active : Bool
deriving Repr, DecidableEq

/-- Observable effects of the template handlers, in program order.
`putTemplatePartial` models the payload of `handleToggleActive` when the
template id is not found locally: the JS spread of `undefined` leaves a
payload holding only `is_active`. -/
inductive Effect where
  | getTemplates
  | setTemplatesFromGet (data : List Template)
  | postTemplate (body : Template)
  | putTemplate (id : String) (body : Template)
  | putTemplatePartial (id : String) (is_active : Bool)
  | deleteTemplate (id : String)
  | postDuplicate (id : String)
  | consoleError (msg : String)
  | toastError (msg : String)
deriving Repr, DecidableEq

/-- Result of an awaited axios call: success, or a caught error whose
`response?.status` is the carried option. -/
inductive Outcome where
  | ok
  | netError (status : Option Nat)
deriving Repr, DecidableEq

/-- The component state touched by the claims: the templates list and the
expand-state map of TaskTemplate.js. -/
structure ComponentState where
  templates : List Template
  expandedGroups : List (String × Bool)
deriving Repr, DecidableEq

/-- TaskTemplate.js lines 59-84 (`fetchTemplates`), success path:
`setTemplates(response.data)` and the expand-state merge. -/
def fetchTemplatesRun (st : ComponentState) (getResp : List Template) : ComponentState :=
  { templates := getResp,
    expandedGroups := fetchTemplatesExpand st.expandedGroups getResp }

/-- The effect trace of a successful `fetchTemplates`: one GET followed by
the assignment of the templates state from that GET response. -/
def fetchTemplatesTrace (getResp : List Template) : List Effect :=
  [Effect.getTemplates, Effect.setTemplatesFromGet getResp]

/-- TaskTemplate.js lines 183-192: the PUT payload of `handleSubmit` in
edit mode, `{ ...editingTemplate, ...form fields }`. -/
def updateDataOf (editingTemplate : Template) (fd : FormData) : Template :=
  { editingTemplate with
    title := fd.title, description := fd.description, frequency := fd.frequency,
    priority := fd.priority, job_type := fd.job_type, assignees := fd.assignees,
    is_active := fd.is_active }

/-- The POST payload of `handleSubmit` in create mode: the bare form data
(no `_id` key). -/
def templateOfForm (fd : FormData) : Template :=
  { _id := none, title := fd.title, description := fd.description,
    frequency := fd.frequency, priority := fd.priority, job_type := fd.job_type,
    assignees := fd.assignees, is_active := fd.is_active }

/-- TaskTemplate.js lines 172-210 (`handleSubmit`), modelled on the state
and effect trace.  `mutResp` is the ignored axios response of the mutation
call; `getResp` is the body of the refetch GET.  The non-admin pre-check
toasts and returns without any network call; a caught error is logged and
toasts exactly when `response?.status === 403`. -/
def handleSubmitRun {α : Type} (st : ComponentState) (isAdmin : Bool)
    (editingTemplate : Option Template) (fd : FormData) (mutResp : α)
    (outcome : Outcome) (getResp : List Template) : ComponentState × List Effect :=
  if isAdmin = false then
    (st, [Effect.toastError "You do not have permission to create or edit templates"])
  else
    let mutTrace :=
      match editingTemplate with
      | some et => [Effect.putTemplate (et._id.getD "undefined") (updateDataOf et fd)]
      | none => [Effect.postTemplate (templateOfForm fd)]
    match outcome with
    | Outcome.ok => (fetchTemplatesRun st getResp, mutTrace ++ fetchTemplatesTrace getResp)
    | Outcome.netError status =>
      (st, mutTrace ++ [Effect.consoleError "Error saving template:"] ++
        (if status = some 403 then
          [Effect.toastError "You do not have permission to perform this action"]
         else []))

/-- TaskTemplate.js lines 216-219: the PUT payload of `handleToggleActive`
when the template was found locally: `{ ...template, is_active:
!currentStatus }`. -/
def toggleActivePayload (t : Template) (currentStatus : Bool) : Template :=
  { t with is_active := !currentStatus }

/-- TaskTemplate.js lines 212-226 (`handleToggleActive`): find the local
record by id, re-send it whole with `is_active` flipped, then refetch on
success and log on error. -/
def handleToggleActiveRun {α : Type} (st : ComponentState) (templateId : String)
    (currentStatus : Bool) (mutResp : α) (outcome : Outcome)
    (getResp : List Template) : ComponentState × List Effect :=
  let putAct :=
    match st.templates.find? (fun t => t._id == some templateId) with
    | some t => Effect.putTemplate templateId (toggleActivePayload t currentStatus)
    | none => Effect.putTemplatePartial templateId (!currentStatus)
  match outcome with
  | Outcome.ok => (fetchTemplatesRun st getResp, [putAct] ++ fetchTemplatesTrace getResp)
  | Outcome.netError _ => (st, [putAct, Effect.consoleError "Error updating template:"])

/-- TaskTemplate.js lines 228-238 (`handleDuplicate`): POST to the
duplicate endpoint of the template id, then refetch on success. -/
def handleDuplicateRun {α : Type} (st : ComponentState) (t : Template) (mutResp : α)
    (outcome : Outcome) (getResp : List Template) : ComponentState × List Effect :=
  match outcome with
  | Outcome.ok =>
    (fetchTemplatesRun st getResp,
     [Effect.postDuplicate (t._id.getD "undefined")] ++ fetchTemplatesTrace getResp)
  | Outcome.netError _ =>
    (st, [Effect.postDuplicate (t._id.getD "undefined"),
          Effect.consoleError "Error duplicating template:"])

/-- TaskTemplate.js lines 314-331 (`handleDelete`): after a confirm
dialog, DELETE the template, then refetch on success; on error log, and
log details when the error carries a response. -/
def handleDeleteRun {α : Type} (st : ComponentState) (templateId : String)
    (confirmed : Bool) (mutResp : α) (outcome : Outcome)
    (getResp : List Template) : ComponentState × List Effect :=
  if confirmed = false then (st, [])
  else
    match outcome with
    | Outcome.ok =>
      (fetchTemplatesRun st getResp,
       [Effect.deleteTemplate templateId] ++ fetchTemplatesTrace getResp)
    | Outcome.netError status =>
      (st, [Effect.deleteTemplate templateId, Effect.consoleError "Error deleting template:"] ++
        (if status.isSome then [Effect.consoleError "Error details:"] else []))

/-- TaskTemplate.js lines 334-354 (`handleDeleteGroup`): after a confirm
dialog, DELETE every template of the group concurrently, then refetch on
join success. -/
def handleDeleteGroupRun {α : Type} (st : ComponentState) (groupTemplates : List Template)
    (confirmed : Bool) (mutResp : α) (outcome : Outcome)
    (getResp : List Template) : ComponentState × List Effect :=
  if confirmed = false then (st, [])
  else
    let deletes := groupTemplates.map (fun t => Effect.deleteTemplate (t._id.getD "undefined"))
    match outcome with
    | Outcome.ok => (fetchTemplatesRun st getResp, deletes ++ fetchTemplatesTrace getResp)
    | Outcome.netError status =>
      (st, deletes ++ [Effect.consoleError "Error deleting templates:"] ++
        (if status.isSome then [Effect.consoleError "Error details:"] else []))

/-- TaskTemplate.js lines 249-269: the copy built by `handleBulkCopy` for
one source template: `_id` stripped, assignees replaced by the source
employee-type assignees followed by the new client as a client-type
assignee. -/
def bulkCopyTemplate (newClient : Assignee) (t : Template) : Template :=
  { t with
    _id := none,
    assignees := t.assignees.filter (fun a => a.type == "employee") ++
      [{ id := newClient.id, name := newClient.name, type := "client" }] }

/-- TaskTemplate.js lines 241-288 (`handleBulkCopy`): POST one copy per
selected source template concurrently, then refetch on join success; on
error log the error and its details. -/
def handleBulkCopyRun {α : Type} (st : ComponentState) (selectedClientTemplates : List Template)
    (newClient : Assignee) (mutResp : α) (outcome : Outcome)
    (getResp : List Template) : ComponentState × List Effect :=
  let posts := selectedClientTemplates.map (fun t => Effect.postTemplate (bulkCopyTemplate newClient t))
  match outcome with
  | Outcome.ok => (fetchTemplatesRun st getResp, posts ++ fetchTemplatesTrace getResp)
  | Outcome.netError _ =>
    (st, posts ++ [Effect.consoleError "Error bulk copying templates:",
                   Effect.consoleError "Error details:"])

/-- Recognizes the assignment of the templates state in a trace. -/
def isSetTemplates : Effect → Bool
  | Effect.setTemplatesFromGet _ => true
  | _ => false

/-- Recognizes a mutating HTTP request (POST, PUT or DELETE) in a trace. -/
def isMutationRequest : Effect → Bool
  | Effect.postTemplate _ => true
  | Effect.putTemplate _ _ => true
  | Effect.putTemplatePartial _ _ => true
  | Effect.deleteTemplate _ => true
  | Effect.postDuplicate _ => true
  | _ => false

/-- Recognizes a toast notification in a trace. -/
def isToast : Effect → Bool
  | Effect.toastError _ => true
  | _ => false

/-- Recognizes a console log of an error in a trace. -/
def isConsoleError : Effect → Bool
  | Effect.consoleError _ => true
  | _ => false

/-- TaskTemplate/TaskTemplate.js lines 105-119 (and the identical function
in TaskManager/TaskTemplate.js lines 79-93): `searchAssignees` clears the
results for a falsy (empty) query, otherwise presents
`response.data.assignees || []` from the server; `respAssignees` is the
`assignees` field of the response body (`none` when absent). -/
def searchAssignees (query : String) (respAssignees : Option (List Assignee)) :
    List Assignee :=
  if query = "" then [] else respAssignees.getD []

/-- TaskTemplate/TaskTemplate.js lines 121-125 (`handleSearchChange`): the
search results after typing a query — the query is passed straight to
`searchAssignees` with no length threshold. -/
def handleSearchChangeResults (query : String) (respAssignees : Option (List Assignee)) :
    List Assignee :=
  searchAssignees query respAssignees

/-- TaskManager/TaskTemplate.js lines 247-254: the assignee-search input
onChange gate — `searchAssignees` runs only for queries of length at least
2, otherwise the results are cleared. -/
def taskManagerSearchOnChange (value : String) (respAssignees : Option (List Assignee)) :
    List Assignee :=
  if 2 ≤ value.length then searchAssignees value respAssignees else []

/-- TaskTemplate/TaskTemplate.js lines 291-311 (`searchClients`): like
`searchAssignees` but keeping only client-type results. -/
def searchClients (query : String) (respAssignees : Option (List Assignee)) :
    List Assignee :=
  if query = "" then []
  else (respAssignees.getD []).filter (fun a => a.type == "client")

/-- TaskTemplate/TaskTemplate.js lines 675-683: the bulk-copy client search
onChange gate — `searchClients` runs only for queries of length at least 2,
otherwise the results are cleared. -/
def newClientSearchOnChange (value : String) (respAssignees : Option (List Assignee)) :
    List Assignee :=
  if 2 ≤ value.length then searchClients value respAssignees else []

/-- TaskTemplate/TaskTemplate.js lines 127-135 (`handleSelectAssignee`),
effect on the selected-assignees list (TaskManager/TaskTemplate.js lines
95-104 is identical on `formData.assignees`): append only when no entry
with the same id is present. -/
def handleSelectAssignee (selectedAssignees : List Assignee) (assignee : Assignee) :
    List Assignee :=
  if (selectedAssignees.find? (fun a => a.id == assignee.id)).isSome then
    selectedAssignees
  else
    selectedAssignees ++ [assignee]

/-- TaskTemplate/TaskTemplate.js lines 137-141 (`handleRemoveAssignee`):
filter the selection by id. -/
def handleRemoveAssignee (selectedAssignees : List Assignee) (assigneeId : String) :
    List Assignee :=
  selectedAssignees.filter (fun a => a.id != assigneeId)

/-- An assignee entry of a task record in the TaskModal component
(src/unnamed/part_002): the stored shape carries denormalized
`client_id` and `employee_id` fields. -/
structure TaskAssignee where
  id : String
  name : String
  type : String
  client_id : Option String
  employee_id : Option String
deriving Repr, DecidableEq

/-- src/unnamed/part_002 lines 239-245: the normalized entry built by
`handleAssigneeSelect` from a search result. -/
def normalizeAssignee (a : Assignee) : TaskAssignee :=
  { id := a.id, name := a.name, type := a.type,
    client_id := if a.type == "client" then some a.id else none,
    employee_id := if a.type == "employee" then some a.id else none }

/-- src/unnamed/part_002 lines 234-249 (`handleAssigneeSelect`), effect on
`formData.assignees`: filter out any entry with the selected id, then
append the normalized entry. -/
def handleAssigneeSelect (assignees : List TaskAssignee) (assignee : Assignee) :
    List TaskAssignee :=
  assignees.filter (fun a => a.id != assignee.id) ++ [normalizeAssignee assignee]

/-- src/unnamed/part_002 lines 201-226 (`handleAssigneeSearch`): for
queries of length at least 2 present the server results minus the already
selected ids; shorter queries clear the options. -/
def handleAssigneeSearch (query : String) (existing : List TaskAssignee)
    (respAssignees : Option (List Assignee)) : List Assignee :=
  if 2 ≤ query.length then
    match respAssignees with
    | some opts => opts.filter (fun o => !(existing.any (fun e => e.id == o.id)))
    | none => []
  else []

/-- A task record as used by the completion flow of src/unnamed/part_002. -/
structure TaskRecord where
  _id : String
  title : String
  description : String
  priority : String
  status : String
  due_date : String
  assignees : List TaskAssignee
  visible_to : List String
  completion_notes : String
deriving Repr, DecidableEq

/-- A timesheet entry as built by `handleComplete`
(src/unnamed/part_002 lines 290-299). -/
structure TimesheetEntry where
  date : String
  client_id : String
  hours : ℤ
  minutes : ℤ
  type : String
  item : String
  description : String
  category : String
deriving Repr, DecidableEq

/-- JS `Math.round`: round half toward positive infinity, which on the
rationals is the floor of the argument plus one half. -/
def jsRound (x : ℚ) : ℤ := ⌊x + 1 / 2⌋

/-- src/unnamed/part_002 lines 279-299 (`handleComplete`), the timesheet
entry built from the completion inputs: float hours are split into integer
hours (`Math.floor`) and rounded fractional minutes, and the separately
entered minutes are added on top with no carry.  `hoursInput` models
`parseFloat(completionData.hours) || 0` and `minutesInput` models
`parseInt(completionData.minutes) || 0`; `today` models the current date
string. -/
def handleCompleteEntry (today : String) (task : TaskRecord) (hoursInput : ℚ)
    (minutesInput : ℤ) : TimesheetEntry :=
  let totalHours := hoursInput
  let hours := ⌊totalHours⌋
  let minutesFromHours := jsRound ((totalHours - (hours : ℚ)) * 60)
  let totalMinutes := minutesFromHours + minutesInput
  { date := today,
    client_id := (((task.assignees.find? (fun a => a.type == "client")).bind
      (fun a => a.client_id)).getD ""),
    hours := hours,
    minutes := totalMinutes,
    type := "task",
    item := task._id,
    description := "Completed task: " ++ task.title,
    category := "TaskRecord Work" }

/-- src/unnamed/part_002 lines 311-321: the second write of the completion
flow — the task re-sent whole with status complete and the captured
notes. -/
def handleCompleteTaskUpdate (task : TaskRecord) (notes : String) : TaskRecord :=
  { task with status := "complete", completion_notes := notes }

lemma filter_map_eq_nil {β : Type} (p : Effect → Bool) (f : β → Effect) (l : List β)
    (h : ∀ b, p (f b) = false) : (l.map f).filter p = [] := by
  induction l with
  | nil => rfl
  | cons b rest ih => simp [List.filter_cons, h b, ih]

lemma any_map_eq_false {β : Type} (p : Effect → Bool) (f : β → Effect) (l : List β)
    (h : ∀ b, p (f b) = false) : (l.map f).any p = false := by
  induction l with
  | nil => rfl
  | cons b rest ih => simp [h b, ih]

lemma countP_map_eq_length {β : Type} (p : Effect → Bool) (f : β → Effect) (l : List β)
    (h : ∀ b, p (f b) = true) : (l.map f).countP p = l.length := by
  induction l with
  | nil => rfl
  | cons b rest ih => simp [List.countP_cons, h b, ih]

/-- The refetch-after-mutation contract of one mutating handler, over the
shared state, the refetch GET body and an error status: on success the
final templates state is exactly the refetch GET body, the trace ends with
the full refetch, and the only assignment of the templates state in the
trace is the one from the GET response; on failure the templates state is
untouched and never assigned at all. -/
def MutationRefetchContract (st : ComponentState) (getResp : List Template)
    (status : Option Nat) (run : Outcome → ComponentState × List Effect) : Prop :=
  (run Outcome.ok).1.templates = getResp ∧
  fetchTemplatesTrace getResp <:+ (run Outcome.ok).2 ∧
  (run Outcome.ok).2.filter isSetTemplates = [Effect.setTemplatesFromGet getResp] ∧
  (run (Outcome.netError status)).1.templates = st.templates ∧
  (run (Outcome.netError status)).2.filter isSetTemplates = []

/-- C3: every mutating operation of TaskTemplate.js — create and edit via
handleSubmit, toggle-active, delete, duplicate, bulk copy and group delete
— satisfies the refetch contract: a successful mutation is followed by the
full refetch and the templates state is only ever assigned from the GET
response of that refetch, never from the mutation response (the handlers
are parametric in the ignored mutation response `mutResp`). -/
theorem C3_refetch_after_mutation {α : Type} (st : ComponentState) (et : Template)
    (fd : FormData) (templateId : String) (currentStatus : Bool) (t : Template)
    (groupTs : List Template) (sel : List Template) (newClient : Assignee)
    (mutResp : α) (getResp : List Template) (status : Option Nat) :
    MutationRefetchContract st getResp status
      (fun o => handleSubmitRun st true (some et) fd mutResp o getResp) ∧
    MutationRefetchContract st getResp status
      (fun o => handleSubmitRun st true none fd mutResp o getResp) ∧
    MutationRefetchContract st getResp status
      (fun o => handleToggleActiveRun st templateId currentStatus mutResp o getResp) ∧
    MutationRefetchContract st getResp status
      (fun o => handleDeleteRun st templateId true mutResp o getResp) ∧
    MutationRefetchContract st getResp status
      (fun o => handleDuplicateRun st t mutResp o getResp) ∧
    MutationRefetchContract st getResp status
      (fun o => handleDeleteGroupRun st groupTs true mutResp o getResp) ∧
    MutationRefetchContract st getResp status
      (fun o => handleBulkCopyRun st sel newClient mutResp o getResp) := by
  refine ⟨⟨rfl, ?_, ?_, rfl, ?_⟩, ⟨rfl, ?_, ?_, rfl, ?_⟩, ⟨?_, ?_, ?_, ?_, ?_⟩,
    ⟨rfl, ?_, ?_, rfl, ?_⟩, ⟨rfl, ?_, ?_, rfl, ?_⟩, ⟨rfl, ?_, ?_, rfl, ?_⟩,
    ⟨rfl, ?_, ?_, rfl, ?_⟩⟩
  · exact ⟨[Effect.putTemplate (et._id.getD "undefined") (updateDataOf et fd)], rfl⟩
  · rfl
  · by_cases h : status = some 403 <;>
      simp [handleSubmitRun, h, isSetTemplates, List.filter_cons]
  · exact ⟨[Effect.postTemplate (templateOfForm fd)], rfl⟩
  · rfl
  · by_cases h : status = some 403 <;>
      simp [handleSubmitRun, h, isSetTemplates, List.filter_cons]
  · cases hfind : st.templates.find? (fun u => u._id == some templateId) <;>
      simp [handleToggleActiveRun, hfind, fetchTemplatesRun]
  · cases hfind : st.templates.find? (fun u => u._id == some templateId) <;>
      exact ⟨_, rfl⟩
  · cases hfind : st.templates.find? (fun u => u._id == some templateId) <;>
      simp [handleToggleActiveRun, hfind, isSetTemplates, List.filter_cons,
        fetchTemplatesTrace]
  · cases hfind : st.templates.find? (fun u => u._id == some templateId) <;>
      simp [handleToggleActiveRun, hfind]
  · cases hfind : st.templates.find? (fun u => u._id == some templateId) <;>
      simp [handleToggleActiveRun, hfind, isSetTemplates, List.filter_cons]
  · exact ⟨[Effect.deleteTemplate templateId], rfl⟩
  · rfl
  · cases status <;> simp [handleDeleteRun, isSetTemplates, List.filter_cons]
  · exact ⟨[Effect.postDuplicate (t._id.getD "undefined")], rfl⟩
  · rfl
  · simp [handleDuplicateRun, isSetTemplates, List.filter_cons]
  · exact List.suffix_append _ _
  · simp [handleDeleteGroupRun, List.filter_append, isSetTemplates, List.filter_cons,
      fetchTemplatesTrace,
      filter_map_eq_nil isSetTemplates
        (fun u => Effect.deleteTemplate (u._id.getD "undefined")) groupTs (fun b => rfl)]
  · cases status <;>
      simp [handleDeleteGroupRun, List.filter_append, isSetTemplates, List.filter_cons,
        filter_map_eq_nil isSetTemplates
          (fun u => Effect.deleteTemplate (u._id.getD "undefined")) groupTs (fun b => rfl)]
  · exact List.suffix_append _ _
  · simp [handleBulkCopyRun, List.filter_append, isSetTemplates, List.filter_cons,
      fetchTemplatesTrace,
      filter_map_eq_nil isSetTemplates
        (fun u => Effect.postTemplate (bulkCopyTemplate newClient u)) sel (fun b => rfl)]
  · simp [handleBulkCopyRun, List.filter_append, isSetTemplates, List.filter_cons,
      filter_map_eq_nil isSetTemplates
        (fun u => Effect.postTemplate (bulkCopyTemplate newClient u)) sel (fun b => rfl)]

/-- C6: the bulk copy transformation strips the id, keeps exactly the
employee-type assignees of the source (in order), carries exactly the one
new client assignee, leaves every other field of the source unchanged, and
one create call is issued per source template on the success path of
handleBulkCopy. -/
theorem C6_bulk_copy_transformation {α : Type} (newClient : Assignee) (t : Template)
    (st : ComponentState) (sel : List Template) (mutResp : α) (getResp : List Template) :
    (bulkCopyTemplate newClient t)._id = none ∧
    (bulkCopyTemplate newClient t).assignees =
      t.assignees.filter (fun a => a.type == "employee") ++
        [{ id := newClient.id, name := newClient.name, type := "client" }] ∧
    (bulkCopyTemplate newClient t).assignees.filter (fun a => a.type == "employee") =
      t.assignees.filter (fun a => a.type == "employee") ∧
    (bulkCopyTemplate newClient t).assignees.filter (fun a => a.type == "client") =
      [{ id := newClient.id, name := newClient.name, type := "client" }] ∧
    (bulkCopyTemplate newClient t).title = t.title ∧
    (bulkCopyTemplate newClient t).description = t.description ∧
    (bulkCopyTemplate newClient t).frequency = t.frequency ∧
    (bulkCopyTemplate newClient t).priority = t.priority ∧
    (bulkCopyTemplate newClient t).job_type = t.job_type ∧
    (bulkCopyTemplate newClient t).is_active = t.is_active ∧
    (handleBulkCopyRun st sel newClient mutResp Outcome.ok getResp).2 =
      sel.map (fun u => Effect.postTemplate (bulkCopyTemplate newClient u)) ++
        fetchTemplatesTrace getResp ∧
    (handleBulkCopyRun st sel newClient mutResp Outcome.ok getResp).2.countP
      isMutationRequest = sel.length + 1 - 1 := by
  refine ⟨rfl, rfl, ?_, ?_, rfl, rfl, rfl, rfl, rfl, rfl, rfl, ?_⟩
  · simp [bulkCopyTemplate, List.filter_append, List.filter_filter, List.filter_cons]
  · simp [bulkCopyTemplate, List.filter_append, List.filter_filter, List.filter_cons]
    intro a ha h1
    rw [h1]
    decide
  · simp [handleBulkCopyRun, List.countP_append, fetchTemplatesTrace, List.countP_cons,
      isMutationRequest,
      countP_map_eq_length isMutationRequest
        (fun u => Effect.postTemplate (bulkCopyTemplate newClient u)) sel (fun b => rfl)]

/-- C7: the payload of the update request of handleToggleActive, for a
template id present in the local list, is the entire local record with
only `is_active` flipped to the negation of the passed current status:
every other field equals the local record. -/
theorem C7_toggle_active_frame {α : Type} (st : ComponentState) (templateId : String)
    (currentStatus : Bool) (mutResp : α) (outcome : Outcome) (getResp : List Template)
    (t : Template)
    (hfind : st.templates.find? (fun u => u._id == some templateId) = some t) :
    ∃ p, (handleToggleActiveRun st templateId currentStatus mutResp outcome getResp).2.head? =
        some (Effect.putTemplate templateId p) ∧
      p.is_active = !currentStatus ∧ p._id = t._id ∧ p.title = t.title ∧
      p.description = t.description ∧ p.frequency = t.frequency ∧
      p.priority = t.priority ∧ p.job_type = t.job_type ∧ p.assignees = t.assignees := by
  refine ⟨toggleActivePayload t currentStatus, ?_, rfl, rfl, rfl, rfl, rfl, rfl, rfl, rfl⟩
  cases outcome <;> simp [handleToggleActiveRun, hfind]

/-- Witness for C7 at a concrete one-template state. -/
theorem C7_toggle_active_frame_witness :
    ∃ p, (handleToggleActiveRun
        { templates :=
            [{ _id := some "t1", title := "A", description := "B", frequency := "daily",
               priority := "high", job_type := "J", assignees := [], is_active := true }],
          expandedGroups := [] } "t1" true () Outcome.ok []).2.head? =
        some (Effect.putTemplate "t1" p) ∧
      p.is_active = !true ∧
      p._id = some "t1" ∧ p.title = "A" ∧ p.description = "B" ∧ p.frequency = "daily" ∧
      p.priority = "high" ∧ p.job_type = "J" ∧ p.assignees = [] :=
  C7_toggle_active_frame _ "t1" true () Outcome.ok []
    { _id := some "t1", title := "A", description := "B", frequency := "daily",
      priority := "high", job_type := "J", assignees := [], is_active := true }
    (by decide)

/-- An employee assignee used as concrete input in examples. -/
def exAssignee1 : Assignee := { id := "1", name := "A", type := "employee" }

/-- A stored task assignee with id 1, as already present in a TaskModal
form. -/
def exTaskAssigneeA : TaskAssignee :=
  { id := "1", name := "A", type := "employee", client_id := none, employee_id := some "1" }

/-- A stored task assignee with id 2. -/
def exTaskAssigneeB : TaskAssignee :=
  { id := "2", name := "B", type := "employee", client_id := none, employee_id := some "2" }

/-- Counterexample to C4: in the TaskModal component (src/unnamed/part_002,
`handleAssigneeSelect`), selecting an assignee whose id is already present
is not a no-op on the selection list — the existing entry is removed and a
normalized copy is appended at the end, changing the list. -/
theorem C4_counterexample :
    (exTaskAssigneeA.id == exAssignee1.id) = true ∧
    handleAssigneeSelect [exTaskAssigneeA, exTaskAssigneeB] exAssignee1 ≠
      [exTaskAssigneeA, exTaskAssigneeB] := by decide

lemma countP_id_filter_ne (l : List TaskAssignee) (i : String) :
    (l.filter (fun x => x.id != i)).countP (fun x => x.id == i) = 0 := by
  induction l with
  | nil => rfl
  | cons x rest ih =>
    by_cases h : x.id = i
    · simp [List.filter_cons, h, ih]
    · simp [List.filter_cons, h, List.countP_cons, ih]

/-- C4 amended: in the TaskTemplate components (`handleSelectAssignee`),
selecting an assignee whose id is already present leaves the selection
unchanged and otherwise appends it; in the TaskModal component
(`handleAssigneeSelect`) the selection is instead filtered by the id and
the normalized entry appended at the end, so the result holds exactly one
entry with the selected id, as its last element. -/
theorem C4_assignee_selection_amended (selected : List Assignee) (a : Assignee)
    (assignees : List TaskAssignee) :
    ((selected.find? (fun x => x.id == a.id)).isSome = true →
      handleSelectAssignee selected a = selected) ∧
    ((selected.find? (fun x => x.id == a.id)).isSome = false →
      handleSelectAssignee selected a = selected ++ [a]) ∧
    (handleAssigneeSelect assignees a).countP (fun x => x.id == a.id) = 1 ∧
    (handleAssigneeSelect assignees a).getLast? = some (normalizeAssignee a) := by
  refine ⟨?_, ?_, ?_, ?_⟩
  · intro h
    simp [handleSelectAssignee, h]
  · intro h
    simp [handleSelectAssignee, h]
  · simp [handleAssigneeSelect, List.countP_append, List.countP_cons, normalizeAssignee,
      countP_id_filter_ne]
  · simp [handleAssigneeSelect]

/-- Witness for C4 amended: selecting an already-present id is a no-op,
and selecting a fresh id appends. -/
theorem C4_assignee_selection_amended_witness :
    handleSelectAssignee [exAssignee1] exAssignee1 = [exAssignee1] ∧
    handleSelectAssignee [] exAssignee1 = [] ++ [exAssignee1] :=
  ⟨(C4_assignee_selection_amended [exAssignee1] exAssignee1 []).1 (by decide),
   (C4_assignee_selection_amended [] exAssignee1 []).2.1 (by decide)⟩

/-- Counterexample to C5: the `handleSearchChange` call site of
TaskTemplate/TaskTemplate.js has no 2-character threshold — a 1-character
query runs the search and presents the server results, which are not
empty. -/
theorem C5_counterexample :
    "a".length < 2 ∧
    handleSearchChangeResults "a" (some [exAssignee1]) = [exAssignee1] ∧
    handleSearchChangeResults "a" (some [exAssignee1]) ≠ [] := by decide

/-- C5 amended: the length-gated call sites (the TaskManager assignee
search, the bulk-copy client search, and the TaskModal assignee search)
yield an empty result for every query of length under 2, and every call
site yields an empty result for the empty query; but the
`handleSearchChange` site of TaskTemplate/TaskTemplate.js gates only the
empty query, and a 1-character query there presents the server results. -/
theorem C5_search_length_gate_amended (value : String) (resp : Option (List Assignee))
    (existing : List TaskAssignee) :
    (value.length < 2 → taskManagerSearchOnChange value resp = []) ∧
    (value.length < 2 → newClientSearchOnChange value resp = []) ∧
    (value.length < 2 → handleAssigneeSearch value existing resp = []) ∧
    searchAssignees "" resp = [] ∧
    handleSearchChangeResults "a" (some [exAssignee1]) = [exAssignee1] := by
  refine ⟨?_, ?_, ?_, by simp [searchAssignees], by decide⟩
  · intro h
    rw [taskManagerSearchOnChange, if_neg (by omega)]
  · intro h
    rw [newClientSearchOnChange, if_neg (by omega)]
  · intro h
    rw [handleAssigneeSearch.eq_def, if_neg (by omega)]

/-- Witness for C5 amended at the 1-character query. -/
theorem C5_search_length_gate_amended_witness :
    taskManagerSearchOnChange "a" (some [exAssignee1]) = [] ∧
    newClientSearchOnChange "a" (some [exAssignee1]) = [] ∧
    handleAssigneeSearch "a" [] (some [exAssignee1]) = [] :=
  ⟨(C5_search_length_gate_amended "a" (some [exAssignee1]) []).1 (by decide),
   (C5_search_length_gate_amended "a" (some [exAssignee1]) []).2.1 (by decide),
   (C5_search_length_gate_amended "a" (some [exAssignee1]) []).2.2.1 (by decide)⟩

/-- A concrete task used by the completion-flow examples. -/
def exCompletionTask : TaskRecord :=
  { _id := "task1", title := "T", description := "", priority := "medium",
    status := "active", due_date := "", assignees := [], visible_to := [],
    completion_notes := "" }

/-- C8: the completion flow decomposes the float hours input into integer
hours (`Math.floor`) and rounded fractional minutes, adding the separately
entered minutes: hours equals the floor of the input and minutes equals
the rounded fractional part times 60 plus the minutes input; for the
concrete input hours = 1.5 the entry holds hours 1 and minutes 30 plus any
pre-existing minutes input. -/
theorem C8_completion_time_decomposition (today : String) (task : TaskRecord)
    (hrs : ℚ) (m : ℤ) :
    (handleCompleteEntry today task hrs m).hours = ⌊hrs⌋ ∧
    (handleCompleteEntry today task hrs m).minutes =
      jsRound ((hrs - (⌊hrs⌋ : ℚ)) * 60) + m ∧
    ∀ m2 : ℤ, (handleCompleteEntry today task (3 / 2 : ℚ) m2).hours = 1 ∧
      (handleCompleteEntry today task (3 / 2 : ℚ) m2).minutes = 30 + m2 := by
  refine ⟨rfl, rfl, ?_⟩
  intro m2
  have hfloor : ⌊(3 / 2 : ℚ)⌋ = 1 := by
    rw [Int.floor_eq_iff]
    norm_num
  constructor
  · show ⌊(3 / 2 : ℚ)⌋ = 1
    exact hfloor
  · show jsRound (((3 / 2 : ℚ) - ((⌊(3 / 2 : ℚ)⌋ : ℤ) : ℚ)) * 60) + m2 = 30 + m2
    rw [hfloor]
    have h30 : jsRound (((3 / 2 : ℚ) - ((1 : ℤ) : ℚ)) * 60) = 30 := by
      rw [jsRound]
      rw [show (((3 / 2 : ℚ) - ((1 : ℤ) : ℚ)) * 60 + 1 / 2) = 61 / 2 by norm_num]
      rw [Int.floor_eq_iff]
      norm_num
    rw [h30]

/-- C10: the completion flow does not normalize minutes into hours — with
hours input 0.5 and a pre-existing minutes input of 45 the created
timesheet entry holds hours 0 and minutes 75, a minutes field of 60 or
more. -/
theorem C10_minutes_not_normalized :
    (handleCompleteEntry "2026-10-12" exCompletionTask (1 / 2 : ℚ) 45).hours = 0 ∧
    (handleCompleteEntry "2026-10-12" exCompletionTask (1 / 2 : ℚ) 45).minutes = 75 ∧
    60 ≤ (handleCompleteEntry "2026-10-12" exCompletionTask (1 / 2 : ℚ) 45).minutes := by
  have hfloor : ⌊(1 / 2 : ℚ)⌋ = 0 := by
    rw [Int.floor_eq_iff]
    norm_num
  have hmin : (handleCompleteEntry "2026-10-12" exCompletionTask (1 / 2 : ℚ) 45).minutes
      = 75 := by
    show jsRound (((1 / 2 : ℚ) - ((⌊(1 / 2 : ℚ)⌋ : ℤ) : ℚ)) * 60) + 45 = 75
    rw [hfloor]
    have h30 : jsRound (((1 / 2 : ℚ) - ((0 : ℤ) : ℚ)) * 60) = 30 := by
      rw [jsRound]
      rw [show (((1 / 2 : ℚ) - ((0 : ℤ) : ℚ)) * 60 + 1 / 2) = 61 / 2 by norm_num]
      rw [Int.floor_eq_iff]
      norm_num
    rw [h30]
    norm_num
  refine ⟨?_, hmin, ?_⟩
  · show ⌊(1 / 2 : ℚ)⌋ = 0
    exact hfloor
  · rw [hmin]
    norm_num

/-- Recognizes the refetch GET in a trace. -/
def isGetTemplates : Effect → Bool
  | Effect.getTemplates => true
  | _ => false

/-- Counterexample to C9: an HTTP 403 failure of handleToggleActive
produces no toast notification at all — only handleSubmit has the 403
toast — even though the error is logged to the console. -/
theorem C9_counterexample :
    (handleToggleActiveRun { templates := [], expandedGroups := [] } "t1" true ()
        (Outcome.netError (some 403)) []).2.any isToast = false ∧
    (handleToggleActiveRun { templates := [], expandedGroups := [] } "t1" true ()
        (Outcome.netError (some 403)) []).2.any isConsoleError = true := by decide

/-- C9 amended: every network failure of the template operations is caught
and logged to the console, on failure no refetch and no retry is issued
(the failure trace holds no GET and exactly the one batch of mutation
requests), and the HTTP 403 toast exists only in handleSubmit — a 403
failure of toggle-active, delete, duplicate, bulk copy or group delete is
logged without any toast notification. -/
theorem C9_error_surfacing_amended {α : Type} (st : ComponentState) (et : Template)
    (fd : FormData) (templateId : String) (currentStatus : Bool) (t : Template)
    (groupTs sel : List Template) (newClient : Assignee) (mutResp : α)
    (getResp : List Template) (status : Option Nat) :
    ((handleSubmitRun st true (some et) fd mutResp (Outcome.netError status) getResp).2.any
      isConsoleError = true) ∧
    ((handleSubmitRun st true none fd mutResp (Outcome.netError status) getResp).2.any
      isConsoleError = true) ∧
    ((handleToggleActiveRun st templateId currentStatus mutResp (Outcome.netError status)
      getResp).2.any isConsoleError = true) ∧
    ((handleDeleteRun st templateId true mutResp (Outcome.netError status) getResp).2.any
      isConsoleError = true) ∧
    ((handleDuplicateRun st t mutResp (Outcome.netError status) getResp).2.any
      isConsoleError = true) ∧
    ((handleDeleteGroupRun st groupTs true mutResp (Outcome.netError status) getResp).2.any
      isConsoleError = true) ∧
    ((handleBulkCopyRun st sel newClient mutResp (Outcome.netError status) getResp).2.any
      isConsoleError = true) ∧
    ((handleSubmitRun st true (some et) fd mutResp (Outcome.netError status) getResp).2.any
      isToast = true ↔ status = some 403) ∧
    ((handleSubmitRun st true none fd mutResp (Outcome.netError status) getResp).2.any
      isToast = true ↔ status = some 403) ∧
    ((handleToggleActiveRun st templateId currentStatus mutResp (Outcome.netError status)
      getResp).2.any isToast = false) ∧
    ((handleDeleteRun st templateId true mutResp (Outcome.netError status) getResp).2.any
      isToast = false) ∧
    ((handleDuplicateRun st t mutResp (Outcome.netError status) getResp).2.any
      isToast = false) ∧
    ((handleDeleteGroupRun st groupTs true mutResp (Outcome.netError status) getResp).2.any
      isToast = false) ∧
    ((handleBulkCopyRun st sel newClient mutResp (Outcome.netError status) getResp).2.any
      isToast = false) ∧
    ((handleSubmitRun st true (some et) fd mutResp (Outcome.netError status) getResp).2.any
      isGetTemplates = false) ∧
    ((handleSubmitRun st true none fd mutResp (Outcome.netError status) getResp).2.any
      isGetTemplates = false) ∧
    ((handleToggleActiveRun st templateId currentStatus mutResp (Outcome.netError status)
      getResp).2.any isGetTemplates = false) ∧
    ((handleDeleteRun st templateId true mutResp (Outcome.netError status) getResp).2.any
      isGetTemplates = false) ∧
    ((handleDuplicateRun st t mutResp (Outcome.netError status) getResp).2.any
      isGetTemplates = false) ∧
    ((handleDeleteGroupRun st groupTs true mutResp (Outcome.netError status) getResp).2.any
      isGetTemplates = false) ∧
    ((handleBulkCopyRun st sel newClient mutResp (Outcome.netError status) getResp).2.any
      isGetTemplates = false) ∧
    ((handleSubmitRun st true (some et) fd mutResp (Outcome.netError status) getResp).2.countP
      isMutationRequest = 1) ∧
    ((handleSubmitRun st true none fd mutResp (Outcome.netError status) getResp).2.countP
      isMutationRequest = 1) ∧
    ((handleToggleActiveRun st templateId currentStatus mutResp (Outcome.netError status)
      getResp).2.countP isMutationRequest = 1) ∧
    ((handleDeleteRun st templateId true mutResp (Outcome.netError status) getResp).2.countP
      isMutationRequest = 1) ∧
    ((handleDuplicateRun st t mutResp (Outcome.netError status) getResp).2.countP
      isMutationRequest = 1) ∧
    ((handleDeleteGroupRun st groupTs true mutResp (Outcome.netError status)
      getResp).2.countP isMutationRequest = groupTs.length) ∧
    ((handleBulkCopyRun st sel newClient mutResp (Outcome.netError status) getResp).2.countP
      isMutationRequest = sel.length) := by
  refine ⟨?_, ?_, ?_, ?_, ?_, ?_, ?_, ?_, ?_, ?_, ?_, ?_, ?_, ?_, ?_, ?_, ?_, ?_, ?_, ?_,
    ?_, ?_, ?_, ?_, ?_, ?_, ?_, ?_⟩
  · by_cases h : status = some 403 <;> simp [handleSubmitRun, h, isConsoleError]
  · by_cases h : status = some 403 <;> simp [handleSubmitRun, h, isConsoleError]
  · cases hfind : st.templates.find? (fun u => u._id == some templateId) <;>
      simp [handleToggleActiveRun, hfind, isConsoleError]
  · cases status <;> simp [handleDeleteRun, isConsoleError]
  · simp [handleDuplicateRun, isConsoleError]
  · cases status <;>
      simp [handleDeleteGroupRun, isConsoleError, List.any_append,
        any_map_eq_false isConsoleError
          (fun u => Effect.deleteTemplate (u._id.getD "undefined")) groupTs (fun b => rfl)]
  · simp [handleBulkCopyRun, isConsoleError, List.any_append,
      any_map_eq_false isConsoleError
        (fun u => Effect.postTemplate (bulkCopyTemplate newClient u)) sel (fun b => rfl)]
  · by_cases h : status = some 403 <;> simp [handleSubmitRun, h, isToast]
  · by_cases h : status = some 403 <;> simp [handleSubmitRun, h, isToast]
  · cases hfind : st.templates.find? (fun u => u._id == some templateId) <;>
      simp [handleToggleActiveRun, hfind, isToast]
  · cases status <;> simp [handleDeleteRun, isToast]
  · simp [handleDuplicateRun, isToast]
  · cases status <;>
      simp [handleDeleteGroupRun, isToast, List.any_append,
        any_map_eq_false isToast
          (fun u => Effect.deleteTemplate (u._id.getD "undefined")) groupTs (fun b => rfl)]
  · simp [handleBulkCopyRun, isToast, List.any_append,
      any_map_eq_false isToast
        (fun u => Effect.postTemplate (bulkCopyTemplate newClient u)) sel (fun b => rfl)]
  · by_cases h : status = some 403 <;> simp [handleSubmitRun, h, isGetTemplates]
  · by_cases h : status = some 403 <;> simp [handleSubmitRun, h, isGetTemplates]
  · cases hfind : st.templates.find? (fun u => u._id == some templateId) <;>
      simp [handleToggleActiveRun, hfind, isGetTemplates]
  · cases status <;> simp [handleDeleteRun, isGetTemplates]
  · simp [handleDuplicateRun, isGetTemplates]
  · cases status <;>
      simp [handleDeleteGroupRun, isGetTemplates, List.any_append,
        any_map_eq_false isGetTemplates
          (fun u => Effect.deleteTemplate (u._id.getD "undefined")) groupTs (fun b => rfl)]
  · simp [handleBulkCopyRun, isGetTemplates, List.any_append,
      any_map_eq_false isGetTemplates
        (fun u => Effect.postTemplate (bulkCopyTemplate newClient u)) sel (fun b => rfl)]
  · by_cases h : status = some 403 <;>
      simp [handleSubmitRun, h, isMutationRequest, List.countP_cons, List.countP_append]
  · by_cases h : status = some 403 <;>
      simp [handleSubmitRun, h, isMutationRequest, List.countP_cons, List.countP_append]
  · cases hfind : st.templates.find? (fun u => u._id == some templateId) <;>
      simp [handleToggleActiveRun, hfind, isMutationRequest, List.countP_cons]
  · cases status <;>
      simp [handleDeleteRun, isMutationRequest, List.countP_cons, List.countP_append]
  · simp [handleDuplicateRun, isMutationRequest, List.countP_cons]
  · cases status <;>
      simp [handleDeleteGroupRun, List.countP_append, List.countP_cons, isMutationRequest,
        countP_map_eq_length isMutationRequest
          (fun u => Effect.deleteTemplate (u._id.getD "undefined")) groupTs (fun b => rfl)]
  · simp [handleBulkCopyRun, List.countP_append, List.countP_cons, isMutationRequest,
      countP_map_eq_length isMutationRequest
        (fun u => Effect.postTemplate (bulkCopyTemplate newClient u)) sel (fun b => rfl)]
